import Mathlib
set_option maxRecDepth 100000

/-!
Shallow embedding of the MicroAI DAO core:
the Solana/Anchor governance program (src/contracts/solana/governance/src/lib.rs)
and the membership program (src/contracts/solana/membership/src/lib.rs).

Instruction handlers are embedded as pure functions of the account values the
execution environment passes to them.  The environment (Solana + Anchor) is
assumed, as in the spec, to apply each instruction atomically: an `Except.error`
result means the whole transaction aborts with no state change, so the handler
never needs to roll anything back.  Machine integers (`u64`) are modelled as
`Nat` with explicit reduction modulo `2 ^ 64` wherever the source performs
arithmetic (`+= 1` compiled without overflow checks wraps); `i64` timestamps
are `Int`s supplied by the environment (`Clock::get()`), and `Pubkey` is an
opaque identity modelled as `Nat`.
-/

/-- Solana public key (account identity), modelled abstractly. -/
abbrev Pubkey := Nat

/-- Modulus of `u64` arithmetic. -/
def U64MOD : Nat := 2 ^ 64

/-- Wrapping `u64` reduction: unchecked `u64` addition in the source is
addition followed by `wrap64`. -/
def wrap64 (n : Nat) : Nat := n % U64MOD

/-- `ProposalStatus` enum (governance lib.rs, lines 138-143). -/
inductive ProposalStatus
  | Active
  | Executed
  | Rejected
deriving DecidableEq, Repr

/-- `ErrorCode` enum (governance lib.rs, lines 145-151). -/
inductive ErrorCode
  | ProposalNotActive
  | AlreadyVoted
deriving DecidableEq, Repr

/-- `Dao` account (governance lib.rs, lines 104-116), field for field. -/
structure Dao where
  authority : Pubkey
  proposal_count : Nat
  member_count : Nat
  legal_name : String
  registered_agent_address : String
  principal_place_of_business : String
  formation_date : Int
  jurisdiction : String
  entity_type : String
deriving DecidableEq, Repr

/-- `Proposal` account (governance lib.rs, lines 118-129), field for field. -/
structure Proposal where
  id : Nat
  title : String
  description : String
  amount : Nat
  proposer : Pubkey
  votes_for : Nat
  votes_against : Nat
  status : ProposalStatus
  created_at : Int
deriving DecidableEq, Repr

/-- `VoteRecord` account (governance lib.rs, lines 131-136). -/
structure VoteRecord where
  has_voted : Bool
  support : Bool
  voter : Pubkey
deriving DecidableEq, Repr

/-- Handler `initialize` of the governance program (lib.rs, lines 9-26):
writes every `Dao` field; `formation_date` is the clock value the environment
supplies, `jurisdiction` and `entity_type` are hard-coded. -/
def initializeDao (authority : Pubkey)
    (legal_name registered_agent_address principal_place_of_business : String)
    (now : Int) : Dao :=
  { authority := authority
    proposal_count := 0
    member_count := 0
    legal_name := legal_name
    registered_agent_address := registered_agent_address
    principal_place_of_business := principal_place_of_business
    formation_date := now
    jurisdiction := "Wyoming"
    entity_type := "DAO LLC" }

/-- Handler `create_proposal` (governance lib.rs, lines 28-50): fills the fresh
`Proposal` account from the inputs and the Dao counter, then increments
`dao.proposal_count` (u64, wrapping).  Returns the updated Dao and the new
proposal; the handler has no failure path. -/
def create_proposal (dao : Dao) (title description : String) (amount : Nat)
    (proposer : Pubkey) (now : Int) : Dao × Proposal :=
  let proposal : Proposal :=
    { id := dao.proposal_count
      title := title
      description := description
      amount := amount
      proposer := proposer
      votes_for := 0
      votes_against := 0
      status := ProposalStatus.Active
      created_at := now }
  ({ dao with proposal_count := wrap64 (dao.proposal_count + 1) }, proposal)

/-- Handler `vote` (governance lib.rs, lines 52-70): `require!` the proposal is
`Active` (else `ProposalNotActive`), `require!` the supplied vote record has
`has_voted == false` (else `AlreadyVoted`), then increment the tally selected
by `support` (u64, wrapping) and write the vote record.  An error return means
the transaction aborts: no account is mutated. -/
def vote (proposal : Proposal) (vote_record : VoteRecord) (voter : Pubkey)
    (support : Bool) : Except ErrorCode (Proposal × VoteRecord) :=
  if proposal.status = ProposalStatus.Active then
    if vote_record.has_voted then
      Except.error ErrorCode.AlreadyVoted
    else
      let proposal' :=
        if support then
          { proposal with votes_for := wrap64 (proposal.votes_for + 1) }
        else
          { proposal with votes_against := wrap64 (proposal.votes_against + 1) }
      Except.ok (proposal', { has_voted := true, support := support, voter := voter })
  else
    Except.error ErrorCode.ProposalNotActive

/-- `MemberType` enum (membership lib.rs, lines 86-91). -/
inductive MemberType
  | Human
  | AI
  | Organization
deriving DecidableEq, Repr

/-- `MemberRegistry` account (membership lib.rs, lines 66-70). -/
structure MemberRegistry where
  authority : Pubkey
  member_count : Nat
deriving DecidableEq, Repr

/-- `Member` account (membership lib.rs, lines 72-84), field for field. -/
structure Member where
  pubkey : Pubkey
  member_type : MemberType
  voting_power : Nat
  joined_at : Int
  is_active : Bool
  legal_name : String
  address : String
  tax_id : String
  kyc_verified : Bool
deriving DecidableEq, Repr

/-- Handler `initialize` of the membership program (lib.rs, lines 9-14). -/
def initializeRegistry (authority : Pubkey) : MemberRegistry :=
  { authority := authority, member_count := 0 }

/-- Handler `add_member` (membership lib.rs, lines 16-41): fills the fresh
`Member` account (`is_active` hard-coded `true`, `kyc_verified` hard-coded
`false`, `joined_at` from the clock) and increments `registry.member_count`
(u64, wrapping).  The handler has no failure path; environment-level failures
(account creation, rent) abort the transaction with no state change. -/
def add_member (registry : MemberRegistry) (member_pubkey : Pubkey)
    (member_type : MemberType) (voting_power : Nat)
    (legal_name address tax_id : String) (now : Int) : MemberRegistry × Member :=
  let member : Member :=
    { pubkey := member_pubkey
      member_type := member_type
      voting_power := voting_power
      joined_at := now
      is_active := true
      legal_name := legal_name
      address := address
      tax_id := tax_id
      kyc_verified := false }
  ({ registry with member_count := wrap64 (registry.member_count + 1) }, member)

/-! ### Account-space persistence gate for `initialize` (governance)

The `Initialize` accounts struct (governance lib.rs, line 75) allocates
`space = 8 + 32 + 8 + 8 + 256 + 512 + 512 + 8 + 64 + 64` bytes for the `Dao`
account.  The handler itself performs no length validation; the environment
serializes the account at the end of the instruction (Borsh: an 8-byte
discriminator, 32 bytes per `Pubkey`, 8 bytes per `u64`/`i64`, and each
`String` as a 4-byte length followed by its bytes) and the instruction fails,
aborting the transaction with no record persisted, exactly when the serialized
record does not fit the allocation. -/

/-- UTF-8 byte length of a `String`. -/
def utf8Len (s : String) : Nat :=
  s.data.foldl (fun n c => n + c.utf8Size) 0

/-- Borsh byte length of a `String`: 4-byte length prefix plus UTF-8 bytes. -/
def borshStrSize (s : String) : Nat :=
  4 + utf8Len s

/-- Space allocated for the `Dao` account by the `init` constraint
(governance lib.rs, line 75). -/
def DAO_SPACE : Nat := 8 + 32 + 8 + 8 + 256 + 512 + 512 + 8 + 64 + 64

/-- Serialized size of a `Dao` record: discriminator plus the fields in
declaration order. -/
def daoSerializedSize (d : Dao) : Nat :=
  8 + 32 + 8 + 8 + borshStrSize d.legal_name +
    borshStrSize d.registered_agent_address +
    borshStrSize d.principal_place_of_business + 8 +
    borshStrSize d.jurisdiction + borshStrSize d.entity_type

/-- The `initialize` instruction as committed by the environment: the handler
runs, then the record persists only if it fits the allocated space. -/
def init_dao (authority : Pubkey)
    (legal_name registered_agent_address principal_place_of_business : String)
    (now : Int) : Option Dao :=
  let d := initializeDao authority legal_name registered_agent_address
    principal_place_of_business now
  if daoSerializedSize d ≤ DAO_SPACE then some d else none

/-! ### Governance system state

A single Dao together with its proposals, with one step per instruction of the
governance program.  The vote step takes the index of the targeted proposal and
the `vote_record` account value the client supplies (the accounts struct at
lib.rs lines 93-102 derives no address from the (proposal, voter) pair, so the
record is an arbitrary client-chosen account); if the handler errors the
transaction aborts and the state is unchanged. -/

structure GovState where
  dao : Dao
  proposals : List Proposal
deriving DecidableEq, Repr

/-- Initial state: a freshly initialized Dao and no proposals. -/
def initState (authority : Pubkey)
    (legal_name registered_agent_address principal_place_of_business : String)
    (now : Int) : GovState :=
  { dao := initializeDao authority legal_name registered_agent_address
      principal_place_of_business now
    proposals := [] }

/-- One `create_proposal` instruction applied to the state. -/
def createStep (s : GovState) (title description : String) (amount : Nat)
    (proposer : Pubkey) (now : Int) : GovState :=
  let r := create_proposal s.dao title description amount proposer now
  { dao := r.1, proposals := s.proposals ++ [r.2] }

/-- One `vote` instruction applied to the state: target proposal `i`, supplied
record `r`.  On handler error the transaction aborts and the state is
unchanged. -/
def voteStep (s : GovState) (i : Nat) (r : VoteRecord) (voter : Pubkey)
    (support : Bool) : GovState :=
  match s.proposals[i]? with
  | none => s
  | some p =>
    match vote p r voter support with
    | Except.ok pr => { s with proposals := s.proposals.set i pr.1 }
    | Except.error _ => s

/-- States reachable from initialization by governance instructions. -/
inductive Reachable : GovState → Prop
  | init (authority : Pubkey) (ln ra pp : String) (now : Int) :
      Reachable (initState authority ln ra pp now)
  | create (s : GovState) (t d : String) (a : Nat) (pr : Pubkey) (now : Int) :
      Reachable s → Reachable (createStep s t d a pr now)
  | voteTx (s : GovState) (i : Nat) (r : VoteRecord) (v : Pubkey) (b : Bool) :
      Reachable s → Reachable (voteStep s i r v b)

/-! ### Vote traces on one proposal

A sequence of `vote` transactions against a single proposal, each supplying a
client-chosen vote record; successful calls commit their written vote record,
failed calls leave the proposal unchanged. -/

structure VoteCall where
  record : VoteRecord
  voter : Pubkey
  support : Bool
deriving DecidableEq, Repr

/-- Run a list of vote calls against a proposal; returns the final proposal and
the list of committed (written) vote records, in order. -/
def runVotes (p : Proposal) : List VoteCall → Proposal × List VoteRecord
  | [] => (p, [])
  | c :: cs =>
    match vote p c.record c.voter c.support with
    | Except.ok pr =>
      let rest := runVotes pr.1 cs
      (rest.1, pr.2 :: rest.2)
    | Except.error _ => runVotes p cs

/-! ### Proposal-creation traces on one Dao -/

structure CreateInput where
  title : String
  description : String
  amount : Nat
  proposer : Pubkey
  now : Int
deriving DecidableEq, Repr

/-- Run a list of `create_proposal` calls against a Dao; returns the final Dao
and the created proposals in call order. -/
def runCreates (d : Dao) : List CreateInput → Dao × List Proposal
  | [] => (d, [])
  | c :: cs =>
    let r := create_proposal d c.title c.description c.amount c.proposer c.now
    let rest := runCreates r.1 cs
    (rest.1, r.2 :: rest.2)

/-! ### Helper lemmas about `vote` -/

def sampleProposal : Proposal :=
  { id := 0, title := "Fund audit", description := "Pay for security audit",
    amount := 1000, proposer := 2, votes_for := 0, votes_against := 0,
    status := ProposalStatus.Active, created_at := 0 }

def sampleProposalFor : Proposal := { sampleProposal with votes_for := 1 }

def executedProposal : Proposal :=
  { sampleProposal with status := ProposalStatus.Executed }

def freshRecord : VoteRecord := { has_voted := false, support := false, voter := 0 }

def votedRecord : VoteRecord := { has_voted := true, support := true, voter := 1 }

def executedState : GovState :=
  { dao := initializeDao 1 "Acme DAO" "1 Agent St" "2 Main St" 0,
    proposals := [executedProposal] }

def sampleCalls : List VoteCall :=
  [ { record := freshRecord, voter := 1, support := true },
    { record := votedRecord, voter := 2, support := false },
    { record := freshRecord, voter := 2, support := false } ]

def sampleDao : Dao := initializeDao 1 "Acme DAO" "1 Agent St" "2 Main St" 0

def sampleCreateInput : CreateInput :=
  { title := "Fund audit", description := "Pay for security audit",
    amount := 1000, proposer := 2, now := 0 }

def sampleState : GovState :=
  voteStep (createStep (initState 1 "Acme DAO" "1 Agent St" "2 Main St" 0)
    "Fund audit" "Pay for security audit" 1000 2 0) 0 freshRecord 3 true

def sampleRegistry : MemberRegistry := initializeRegistry 1

def longName : String := String.mk (List.replicate 300 'a')

def hugeName : String := String.mk (List.replicate 1400 'a')

def maxDao : Dao := { sampleDao with proposal_count := U64MOD - 1 }

def maxProposal : Proposal := { sampleProposal with votes_for := U64MOD - 1 }

def maxProposalAgainst : Proposal :=
  { sampleProposal with votes_against := U64MOD - 1 }

def maxRegistry : MemberRegistry := { authority := 1, member_count := U64MOD - 1 }

/-- Characterization of a successful `vote` call. -/
lemma vote_ok_iff {p : Proposal} {r : VoteRecord} {v : Pubkey} {s : Bool}
    {p' : Proposal} {r' : VoteRecord} :
    vote p r v s = Except.ok (p', r') ↔
      p.status = ProposalStatus.Active ∧ r.has_voted = false ∧
      p' = (if s then { p with votes_for := wrap64 (p.votes_for + 1) }
            else { p with votes_against := wrap64 (p.votes_against + 1) }) ∧
      r' = { has_voted := true, support := s, voter := v } := by
  unfold vote
  split
  next hact =>
    cases hr : r.has_voted
    · simp [hact, hr, eq_comm, and_assoc]
    · simp [hact, hr]
  next hact => simp [hact]

/-- A `vote` call on a non-Active proposal errors with `ProposalNotActive`. -/
lemma vote_not_active {p : Proposal} (r : VoteRecord) (v : Pubkey) (s : Bool)
    (h : p.status ≠ ProposalStatus.Active) :
    vote p r v s = Except.error ErrorCode.ProposalNotActive := by
  unfold vote
  rw [if_neg h]

/-- A successful `vote` call preserves the proposal status. -/
lemma vote_preserves_status {p : Proposal} {r : VoteRecord} {v : Pubkey} {s : Bool}
    {p' : Proposal} {r' : VoteRecord} (h : vote p r v s = Except.ok (p', r')) :
    p'.status = p.status := by
  rcases vote_ok_iff.mp h with ⟨-, -, hp, -⟩
  subst hp
  cases s <;> simp

/-! ### Sample values used to witness the theorems on concrete inputs -/

/-- Wrapping `u64` addition is exact below the modulus. -/
lemma wrap64_eq_of_lt {n : Nat} (h : n < U64MOD) : wrap64 n = n :=
  Nat.mod_eq_of_lt h

/-- A successful vote moves the tally sum up by exactly one (below the `u64`
modulus). -/
lemma vote_ok_tally_sum {p : Proposal} {r : VoteRecord} {v : Pubkey} {s : Bool}
    {p' : Proposal} {r' : VoteRecord} (h : vote p r v s = Except.ok (p', r'))
    (hb : p.votes_for + p.votes_against + 1 < U64MOD) :
    p'.votes_for + p'.votes_against = p.votes_for + p.votes_against + 1 := by
  rcases vote_ok_iff.mp h with ⟨-, -, hp, -⟩
  cases s <;> simp at hp <;> subst hp <;> simp <;>
    rw [wrap64_eq_of_lt (by omega)] <;> omega

/-- Over any trace of vote calls, the tally sum advances by exactly the number
of committed vote records, as long as no `u64` wrap occurs. -/
lemma runVotes_tally_sum (calls : List VoteCall) :
    ∀ p : Proposal,
      p.votes_for + p.votes_against + (runVotes p calls).2.length < U64MOD →
      (runVotes p calls).1.votes_for + (runVotes p calls).1.votes_against =
        p.votes_for + p.votes_against + (runVotes p calls).2.length := by
  induction calls with
  | nil =>
    intro p _
    simp [runVotes]
  | cons c cs ih =>
    intro p hb
    cases hv : vote p c.record c.voter c.support with
    | error e =>
      have hrw : runVotes p (c :: cs) = runVotes p cs := by
        simp [runVotes, hv]
      rw [hrw] at hb ⊢
      exact ih p hb
    | ok pr =>
      obtain ⟨p', r'⟩ := pr
      have hrw : runVotes p (c :: cs) =
          ((runVotes p' cs).1, r' :: (runVotes p' cs).2) := by
        simp [runVotes, hv]
      rw [hrw] at hb ⊢
      simp only [List.length_cons] at hb ⊢
      have hstep : p'.votes_for + p'.votes_against =
          p.votes_for + p.votes_against + 1 :=
        vote_ok_tally_sum hv (by omega)
      have hres := ih p' (by omega)
      omega

/-- Ids assigned along a `create_proposal` trace: the i-th created proposal
gets id `(initial proposal_count + i) % 2 ^ 64`, and the counter advances
accordingly. -/
lemma runCreates_ids (cs : List CreateInput) :
    ∀ d : Dao, d.proposal_count < U64MOD →
      (runCreates d cs).2.map Proposal.id =
        (List.range cs.length).map (fun i => (d.proposal_count + i) % U64MOD) ∧
      (runCreates d cs).1.proposal_count =
        (d.proposal_count + cs.length) % U64MOD := by
  induction cs with
  | nil =>
    intro d hd
    simp [runCreates, Nat.mod_eq_of_lt hd]
  | cons c cs ih =>
    intro d hd
    have hM : (0:Nat) < U64MOD := by norm_num [U64MOD]
    obtain ⟨ih1, ih2⟩ :=
      ih { d with proposal_count := wrap64 (d.proposal_count + 1) }
        (Nat.mod_lt _ hM)
    have hrw : runCreates d (c :: cs) =
        ((runCreates { d with proposal_count := wrap64 (d.proposal_count + 1) } cs).1,
          { id := d.proposal_count, title := c.title, description := c.description,
            amount := c.amount, proposer := c.proposer, votes_for := 0,
            votes_against := 0, status := ProposalStatus.Active,
            created_at := c.now } ::
          (runCreates { d with proposal_count := wrap64 (d.proposal_count + 1) } cs).2) := by
      simp [runCreates, create_proposal]
    rw [hrw]
    constructor
    · simp only [List.map_cons, List.length_cons, List.range_succ_eq_map,
        List.map_map, ih1]
      congr 1
      · rw [Nat.add_zero]
        exact (Nat.mod_eq_of_lt hd).symm
      · refine List.map_congr_left fun i hi => ?_
        simp only [Function.comp_apply]
        unfold wrap64
        rw [Nat.mod_add_mod]
        congr 1
        omega
    · simp only [ih2, List.length_cons]
      unfold wrap64
      rw [Nat.mod_add_mod]
      congr 1
      omega

/-- C1: the code does not prevent a second vote by the same voter on the same
proposal.  After voter 1's successful vote on `sampleProposal`, a second call
by voter 1 on the same (now updated) proposal succeeds whenever the client
supplies a fresh `vote_record` account: the `Vote` accounts struct (governance
lib.rs, lines 93-102) derives no address from the (proposal, voter) pair, and
the handler consults only the supplied record's `has_voted` flag.  The second
call returns `Ok`, increments `votes_against`, and commits a second
`VoteRecord` with `voter = 1` for the same proposal, contradicting the claimed
`AlreadyVoted` failure and the at-most-one-record-per-pair invariant. -/
theorem double_vote_not_prevented :
    vote sampleProposal freshRecord 1 true =
      Except.ok (sampleProposalFor,
        { has_voted := true, support := true, voter := 1 }) ∧
    vote sampleProposalFor freshRecord 1 false =
      Except.ok ({ sampleProposalFor with votes_against := 1 },
        { has_voted := true, support := false, voter := 1 }) :=
  ⟨rfl, rfl⟩

/-- C2: a `vote` call on a proposal whose status is not Active fails with
`ProposalNotActive` for every supplied vote record (in particular one with
`has_voted = true`: the status check comes first), and the corresponding
transaction leaves the governance state unchanged — no tally moves and no vote
record is committed. -/
theorem vote_not_active_rejects (p : Proposal) (r : VoteRecord) (v : Pubkey)
    (s : Bool) (h : p.status ≠ ProposalStatus.Active) :
    vote p r v s = Except.error ErrorCode.ProposalNotActive ∧
    (∀ (g : GovState) (i : Nat), g.proposals[i]? = some p →
      voteStep g i r v s = g) := by
  refine ⟨vote_not_active r v s h, fun g i hg => ?_⟩
  simp [voteStep, hg, vote_not_active r v s h]

/-- C2 witness: an Executed proposal with an already-voted record. -/
theorem vote_not_active_rejects_witness :
    vote executedProposal votedRecord 1 true =
      Except.error ErrorCode.ProposalNotActive ∧
    voteStep executedState 0 votedRecord 1 true = executedState := by
  have h := vote_not_active_rejects executedProposal votedRecord 1 true (by decide)
  exact ⟨h.1, h.2 executedState 0 rfl⟩

/-- C3: a successful `vote(support)` call increments exactly the selected tally
by exactly 1 and records `support` and the caller identity in the written vote
record (the handler takes no `Member` account: `voting_power` cannot be and is
not consulted), and over any trace of vote calls on a fresh proposal the final
`votes_for + votes_against` equals the number of committed vote records (all
below the `u64` wrap point, which claim C10 covers). -/
theorem vote_unit_increments_and_sum :
    (∀ (p : Proposal) (r : VoteRecord) (v : Pubkey) (p' : Proposal)
        (r' : VoteRecord), vote p r v true = Except.ok (p', r') →
        p.votes_for + 1 < U64MOD →
        p'.votes_for = p.votes_for + 1 ∧ p'.votes_against = p.votes_against ∧
        r' = { has_voted := true, support := true, voter := v }) ∧
    (∀ (p : Proposal) (r : VoteRecord) (v : Pubkey) (p' : Proposal)
        (r' : VoteRecord), vote p r v false = Except.ok (p', r') →
        p.votes_against + 1 < U64MOD →
        p'.votes_against = p.votes_against + 1 ∧ p'.votes_for = p.votes_for ∧
        r' = { has_voted := true, support := false, voter := v }) ∧
    (∀ (p : Proposal) (calls : List VoteCall),
        p.votes_for = 0 → p.votes_against = 0 →
        (runVotes p calls).2.length < U64MOD →
        (runVotes p calls).1.votes_for + (runVotes p calls).1.votes_against =
          (runVotes p calls).2.length) := by
  refine ⟨fun p r v p' r' h hb => ?_, fun p r v p' r' h hb => ?_,
    fun p calls h1 h2 hlen => ?_⟩
  · rcases vote_ok_iff.mp h with ⟨-, -, hp, hr⟩
    subst hp
    exact ⟨wrap64_eq_of_lt hb, rfl, hr⟩
  · rcases vote_ok_iff.mp h with ⟨-, -, hp, hr⟩
    subst hp
    exact ⟨wrap64_eq_of_lt hb, rfl, hr⟩
  · have := runVotes_tally_sum calls p (by omega)
    omega

/-- C3 witness: a concrete trace — voter 1 votes for, voter 2's first attempt
fails (record already marked), voter 2 then votes against; two committed
records, tally sum 2. -/
theorem vote_unit_increments_and_sum_witness :
    (sampleProposalFor.votes_for = sampleProposal.votes_for + 1 ∧
     sampleProposalFor.votes_against = sampleProposal.votes_against ∧
     ({ has_voted := true, support := true, voter := 1 } : VoteRecord) =
       { has_voted := true, support := true, voter := 1 }) ∧
    ((runVotes sampleProposal sampleCalls).1.votes_for +
        (runVotes sampleProposal sampleCalls).1.votes_against =
      (runVotes sampleProposal sampleCalls).2.length) := by
  constructor
  · exact vote_unit_increments_and_sum.1 sampleProposal freshRecord 1
      sampleProposalFor { has_voted := true, support := true, voter := 1 }
      rfl (by decide)
  · exact vote_unit_increments_and_sum.2.2 sampleProposal sampleCalls rfl rfl
      (by decide)

/-! ### Proposal id sequencing -/

/-- C4: starting from a fresh Dao, successful `create_proposal` calls assign
ids `0, 1, 2, …` in call order with no gaps and no repeats; each call assigns
`id = dao.proposal_count` and then advances the counter by exactly 1 (below
the `u64` wrap point, which claim C10 covers). -/
theorem create_proposal_sequential_ids :
    (∀ (d : Dao) (t ds : String) (a : Nat) (pr : Pubkey) (now : Int),
        (create_proposal d t ds a pr now).2.id = d.proposal_count) ∧
    (∀ (d : Dao) (t ds : String) (a : Nat) (pr : Pubkey) (now : Int),
        d.proposal_count < U64MOD - 1 →
        (create_proposal d t ds a pr now).1.proposal_count =
          d.proposal_count + 1) ∧
    (∀ (d : Dao) (cs : List CreateInput),
        d.proposal_count = 0 → cs.length ≤ U64MOD →
        (runCreates d cs).2.map Proposal.id = List.range cs.length ∧
        ((runCreates d cs).2.map Proposal.id).Nodup) := by
  refine ⟨fun d t ds a pr now => rfl, fun d t ds a pr now h => ?_,
    fun d cs h0 hlen => ?_⟩
  · exact wrap64_eq_of_lt (by omega)
  · have hM : (0:Nat) < U64MOD := by norm_num [U64MOD]
    obtain ⟨h1, h2⟩ := runCreates_ids cs d (by omega)
    rw [h0] at h1
    have hr : (List.range cs.length).map (fun i => (0 + i) % U64MOD) =
        List.range cs.length := by
      have hpt : ∀ i ∈ List.range cs.length, (0 + i) % U64MOD = i := by
        intro i hi
        rw [Nat.zero_add]
        exact Nat.mod_eq_of_lt (lt_of_lt_of_le (List.mem_range.mp hi) hlen)
      rw [List.map_congr_left hpt]
      simp
    rw [h1, hr]
    exact ⟨rfl, List.nodup_range _⟩

/-- C4 witness: two concrete creations on a fresh Dao yield ids `[0, 1]`. -/
theorem create_proposal_sequential_ids_witness :
    ((create_proposal sampleDao "t" "d" 5 2 0).1.proposal_count =
      sampleDao.proposal_count + 1) ∧
    ((runCreates sampleDao [sampleCreateInput, sampleCreateInput]).2.map
        Proposal.id = List.range 2 ∧
      ((runCreates sampleDao [sampleCreateInput, sampleCreateInput]).2.map
        Proposal.id).Nodup) := by
  constructor
  · exact create_proposal_sequential_ids.2.1 sampleDao "t" "d" 5 2 0 (by decide)
  · exact create_proposal_sequential_ids.2.2 sampleDao
      [sampleCreateInput, sampleCreateInput] rfl (by decide)

/-! ### Reachable governance states -/

/-- C5: `create_proposal` sets `status = Active`, and no operation of this
core (initialize, create_proposal, vote) ever moves a proposal to `Executed`
or `Rejected`: in every reachable governance state, every proposal is
`Active`. -/
theorem reachable_proposals_active :
    (∀ (d : Dao) (t ds : String) (a : Nat) (pr : Pubkey) (now : Int),
        (create_proposal d t ds a pr now).2.status = ProposalStatus.Active) ∧
    (∀ s : GovState, Reachable s → ∀ p ∈ s.proposals,
        p.status = ProposalStatus.Active) := by
  refine ⟨fun d t ds a pr now => rfl, fun s hs => ?_⟩
  induction hs with
  | init a ln ra pp now =>
    intro p hp
    simp [initState] at hp
  | create s t d a pr now hr ih =>
    intro p hp
    simp only [createStep] at hp
    rcases List.mem_append.mp hp with h | h
    · exact ih p h
    · rw [List.mem_singleton.mp h]
      rfl
  | voteTx s i r v b hr ih =>
    intro p hp
    unfold voteStep at hp
    split at hp
    · exact ih p hp
    next p0 heq =>
      split at hp
      next pr0 heq2 =>
        obtain ⟨p', r'⟩ := pr0
        rcases List.mem_or_eq_of_mem_set hp with h | h
        · exact ih p h
        · subst h
          rw [vote_preserves_status heq2]
          exact ih p0 (List.getElem?_mem heq)
      next heq2 => exact ih p hp

/-- C5 witness: after initialize, one creation and one successful vote, the
stored proposal is still Active. -/
theorem reachable_proposals_active_witness :
    (sampleState.proposals.get ⟨0, by decide⟩).status = ProposalStatus.Active :=
  reachable_proposals_active.2 sampleState
    (Reachable.voteTx _ 0 freshRecord 3 true
      (Reachable.create _ "Fund audit" "Pay for security audit" 1000 2 0
        (Reachable.init 1 "Acme DAO" "1 Agent St" "2 Main St" 0)))
    _ (List.get_mem _ 0 _)

/-! ### Membership -/

/-- C6: `add_member` creates the Member record with `is_active = true`,
`kyc_verified = false`, the target pubkey and the given type, weight and
compliance strings, and increments `member_count` by exactly 1 (below the
`u64` wrap point, which claim C10 covers).  The handler has no failure path:
an environment-level failure aborts the transaction, leaving the count
untouched. -/
theorem add_member_effects :
    ∀ (reg : MemberRegistry) (pk : Pubkey) (mt : MemberType) (vp : Nat)
      (ln ad tid : String) (now : Int),
      (add_member reg pk mt vp ln ad tid now).2 =
        { pubkey := pk, member_type := mt, voting_power := vp, joined_at := now,
          is_active := true, legal_name := ln, address := ad, tax_id := tid,
          kyc_verified := false } ∧
      (add_member reg pk mt vp ln ad tid now).1.authority = reg.authority ∧
      (reg.member_count < U64MOD - 1 →
        (add_member reg pk mt vp ln ad tid now).1.member_count =
          reg.member_count + 1) := by
  intro reg pk mt vp ln ad tid now
  exact ⟨rfl, rfl, fun h => wrap64_eq_of_lt (by omega)⟩

/-- C6 witness: the spec scenario — `add_member(Human, 100, "Jane Doe", …)` on
a fresh registry takes `member_count` from 0 to 1, `kyc_verified = false`,
`is_active = true`. -/
theorem add_member_effects_witness :
    (add_member sampleRegistry 7 MemberType.Human 100 "Jane Doe" "123 Main St"
        "123-45-6789" 0).2 =
      { pubkey := 7, member_type := MemberType.Human, voting_power := 100,
        joined_at := 0, is_active := true, legal_name := "Jane Doe",
        address := "123 Main St", tax_id := "123-45-6789",
        kyc_verified := false } ∧
    (add_member sampleRegistry 7 MemberType.Human 100 "Jane Doe" "123 Main St"
        "123-45-6789" 0).1.authority = sampleRegistry.authority ∧
    (add_member sampleRegistry 7 MemberType.Human 100 "Jane Doe" "123 Main St"
        "123-45-6789" 0).1.member_count = sampleRegistry.member_count + 1 := by
  obtain ⟨h1, h2, h3⟩ := add_member_effects sampleRegistry 7 MemberType.Human
    100 "Jane Doe" "123 Main St" "123-45-6789" 0
  exact ⟨h1, h2, h3 (by decide)⟩

/-! ### Dao initialization and the account-space budget -/

/-- C7 (amended): the serialized `Dao` record occupies `98` fixed bytes plus
the three input strings, and `initialize` persists no record exactly when the
combined input strings exceed `1374` bytes (the aggregate slack of the
allocated `1472` bytes); the reserved per-field budgets (256/512/512) are not
individually enforced. -/
theorem init_dao_space_gate :
    ∀ (auth : Pubkey) (ln ra pp : String) (now : Int),
      daoSerializedSize (initializeDao auth ln ra pp now) =
        98 + utf8Len ln + utf8Len ra + utf8Len pp ∧
      (init_dao auth ln ra pp now = none ↔
        1374 < utf8Len ln + utf8Len ra + utf8Len pp) ∧
      (∀ d : Dao, init_dao auth ln ra pp now = some d →
        d = initializeDao auth ln ra pp now) := by
  intro auth ln ra pp now
  have hW : utf8Len "Wyoming" = 7 := by decide
  have hE : utf8Len "DAO LLC" = 7 := by decide
  have hsize : daoSerializedSize (initializeDao auth ln ra pp now) =
      98 + utf8Len ln + utf8Len ra + utf8Len pp := by
    simp only [daoSerializedSize, borshStrSize, initializeDao, hW, hE]
    omega
  refine ⟨hsize, ?_, ?_⟩
  · simp only [init_dao]
    split
    next hle =>
      rw [hsize] at hle
      norm_num [DAO_SPACE] at hle
      simp only [reduceCtorEq, false_iff]
      omega
    next hgt =>
      rw [hsize] at hgt
      norm_num [DAO_SPACE] at hgt
      simp only [true_iff]
      omega
  · intro d hd
    simp only [init_dao] at hd
    split at hd
    next => exact (Option.some.injEq _ _ ▸ hd).symm
    next => exact absurd hd (by simp)

/-- C7 counterexample: a `legal_name` of 300 bytes — over the ~256-byte budget
the spec says must fail validation — still persists a Dao record when the two
addresses are short, because the `init` constraint only bounds the aggregate
serialized size. -/
theorem init_dao_overbudget_name_persists :
    256 < borshStrSize longName ∧
    init_dao 1 longName "" "" 0 = some (initializeDao 1 longName "" "" 0) := by
  exact ⟨by decide, by decide⟩

/-- C7 witness: the aggregate gate does reject sufficiently oversized input
(a 1400-byte name), and accepts and faithfully stores ordinary input. -/
theorem init_dao_space_gate_witness :
    daoSerializedSize (initializeDao 1 "Acme DAO" "1 Agent St" "2 Main St" 0) =
      98 + utf8Len "Acme DAO" + utf8Len "1 Agent St" + utf8Len "2 Main St" ∧
    init_dao 1 hugeName "" "" 0 = none ∧
    initializeDao 1 "Acme DAO" "1 Agent St" "2 Main St" 0 =
      initializeDao 1 "Acme DAO" "1 Agent St" "2 Main St" 0 := by
  obtain ⟨h1, -, h3⟩ := init_dao_space_gate 1 "Acme DAO" "1 Agent St" "2 Main St" 0
  obtain ⟨-, g2, -⟩ := init_dao_space_gate 1 hugeName "" "" 0
  exact ⟨h1, g2.mpr (by decide), h3 _ (by decide)⟩

/-! ### u64 wrap-around of the counters -/

/-- C8: on an Active proposal, a `vote` call fails with `AlreadyVoted` exactly
when the supplied vote record has `has_voted = true`; the check reads nothing
else (the proposal id and the voter are universally quantified here), and with
`has_voted = false` the call always succeeds, whoever the voter is. -/
theorem vote_already_voted_iff (p : Proposal) (r : VoteRecord) (v : Pubkey)
    (s : Bool) (hact : p.status = ProposalStatus.Active) :
    ((vote p r v s = Except.error ErrorCode.AlreadyVoted) ↔ r.has_voted = true) ∧
    (r.has_voted = false →
      vote p r v s = Except.ok
        ((if s then { p with votes_for := wrap64 (p.votes_for + 1) }
          else { p with votes_against := wrap64 (p.votes_against + 1) }),
         { has_voted := true, support := s, voter := v })) := by
  unfold vote
  rw [if_pos hact]
  cases hr : r.has_voted <;> simp [hr]

/-- C8 witness: Active proposal, record with `has_voted = true`. -/
theorem vote_already_voted_iff_witness :
    ((vote sampleProposal votedRecord 1 true =
        Except.error ErrorCode.AlreadyVoted) ↔ votedRecord.has_voted = true) ∧
    (votedRecord.has_voted = false →
      vote sampleProposal votedRecord 1 true = Except.ok
        ((if true then
            { sampleProposal with votes_for := wrap64 (sampleProposal.votes_for + 1) }
          else
            { sampleProposal with votes_against := wrap64 (sampleProposal.votes_against + 1) }),
         { has_voted := true, support := true, voter := 1 })) :=
  vote_already_voted_iff sampleProposal votedRecord 1 true rfl

/-- C9: a successful `vote` call mutates only the tally selected by `support`:
id, title, description, amount, proposer, status and created_at keep their
pre-call values, and the unselected tally is unchanged. -/
theorem vote_frame (p : Proposal) (r : VoteRecord) (v : Pubkey) (s : Bool)
    (p' : Proposal) (r' : VoteRecord) (h : vote p r v s = Except.ok (p', r')) :
    p'.id = p.id ∧ p'.title = p.title ∧ p'.description = p.description ∧
    p'.amount = p.amount ∧ p'.proposer = p.proposer ∧ p'.status = p.status ∧
    p'.created_at = p.created_at ∧
    (s = true → p'.votes_against = p.votes_against) ∧
    (s = false → p'.votes_for = p.votes_for) := by
  rcases vote_ok_iff.mp h with ⟨-, -, hp, -⟩
  subst hp
  cases s <;> simp

/-- C9 witness: frame conditions at a concrete successful vote. -/
theorem vote_frame_witness :
    sampleProposalFor.id = sampleProposal.id ∧
    sampleProposalFor.title = sampleProposal.title ∧
    sampleProposalFor.description = sampleProposal.description ∧
    sampleProposalFor.amount = sampleProposal.amount ∧
    sampleProposalFor.proposer = sampleProposal.proposer ∧
    sampleProposalFor.status = sampleProposal.status ∧
    sampleProposalFor.created_at = sampleProposal.created_at ∧
    (true = true → sampleProposalFor.votes_against = sampleProposal.votes_against) ∧
    (true = false → sampleProposalFor.votes_for = sampleProposal.votes_for) :=
  vote_frame sampleProposal freshRecord 1 true sampleProposalFor
    { has_voted := true, support := true, voter := 1 } rfl

/-! ### Tally arithmetic -/

/-- C10: the counter and tally updates are unchecked `u64` additions, i.e.
addition mod `2 ^ 64`: at pre-state value `2 ^ 64 - 1` a successful call wraps
the counter to 0, and strict growth of `proposal_count` holds exactly below
`2 ^ 64 - 1`. -/
theorem u64_counters_wrap :
    (∀ (d : Dao) (t ds : String) (a : Nat) (pr : Pubkey) (now : Int),
        (create_proposal d t ds a pr now).1.proposal_count =
          (d.proposal_count + 1) % U64MOD) ∧
    (∀ (d : Dao) (t ds : String) (a : Nat) (pr : Pubkey) (now : Int),
        d.proposal_count = U64MOD - 1 →
        (create_proposal d t ds a pr now).1.proposal_count = 0) ∧
    (∀ (p : Proposal) (r : VoteRecord) (v : Pubkey) (p' : Proposal)
        (r' : VoteRecord), p.votes_for = U64MOD - 1 →
        vote p r v true = Except.ok (p', r') → p'.votes_for = 0) ∧
    (∀ (p : Proposal) (r : VoteRecord) (v : Pubkey) (p' : Proposal)
        (r' : VoteRecord), p.votes_against = U64MOD - 1 →
        vote p r v false = Except.ok (p', r') → p'.votes_against = 0) ∧
    (∀ (reg : MemberRegistry) (pk : Pubkey) (mt : MemberType) (vp : Nat)
        (ln ad tid : String) (now : Int), reg.member_count = U64MOD - 1 →
        (add_member reg pk mt vp ln ad tid now).1.member_count = 0) ∧
    (∀ (d : Dao) (t ds : String) (a : Nat) (pr : Pubkey) (now : Int),
        d.proposal_count < U64MOD - 1 →
        d.proposal_count < (create_proposal d t ds a pr now).1.proposal_count) := by
  have hM : (0:Nat) < U64MOD := by norm_num [U64MOD]
  have hwrap : wrap64 (U64MOD - 1 + 1) = 0 := by
    unfold wrap64
    rw [Nat.sub_add_cancel (by omega), Nat.mod_self]
  refine ⟨fun d t ds a pr now => rfl, fun d t ds a pr now h => ?_,
    fun p r v p' r' h hv => ?_, fun p r v p' r' h hv => ?_,
    fun reg pk mt vp ln ad tid now h => ?_, fun d t ds a pr now h => ?_⟩
  · show wrap64 (d.proposal_count + 1) = 0
    rw [h, hwrap]
  · rcases vote_ok_iff.mp hv with ⟨-, -, hp, -⟩
    subst hp
    show wrap64 (p.votes_for + 1) = 0
    rw [h, hwrap]
  · rcases vote_ok_iff.mp hv with ⟨-, -, hp, -⟩
    subst hp
    show wrap64 (p.votes_against + 1) = 0
    rw [h, hwrap]
  · show wrap64 (reg.member_count + 1) = 0
    rw [h, hwrap]
  · show d.proposal_count < wrap64 (d.proposal_count + 1)
    rw [wrap64_eq_of_lt (by omega)]
    omega

/-- C10 witness: concrete wrap at `2 ^ 64 - 1` for each counter, and strict
growth below it. -/
theorem u64_counters_wrap_witness :
    (create_proposal maxDao "t" "d" 5 2 0).1.proposal_count = 0 ∧
    ({ maxProposal with votes_for := wrap64 (maxProposal.votes_for + 1) } :
      Proposal).votes_for = 0 ∧
    ({ maxProposalAgainst with
        votes_against := wrap64 (maxProposalAgainst.votes_against + 1) } :
      Proposal).votes_against = 0 ∧
    (add_member maxRegistry 7 MemberType.Human 1 "a" "b" "c" 0).1.member_count
      = 0 ∧
    sampleDao.proposal_count <
      (create_proposal sampleDao "t" "d" 5 2 0).1.proposal_count := by
  refine ⟨u64_counters_wrap.2.1 maxDao "t" "d" 5 2 0 rfl,
    u64_counters_wrap.2.2.1 maxProposal freshRecord 1 _
      { has_voted := true, support := true, voter := 1 } rfl rfl,
    u64_counters_wrap.2.2.2.1 maxProposalAgainst freshRecord 1 _
      { has_voted := true, support := false, voter := 1 } rfl rfl,
    u64_counters_wrap.2.2.2.2.1 maxRegistry 7 MemberType.Human 1 "a" "b" "c" 0
      rfl,
    u64_counters_wrap.2.2.2.2.2 sampleDao "t" "d" 5 2 0 (by decide)⟩
